import Mathlib

/-!
Shallow embedding of `github_pr_manager.py` (class `GitHubPRManager`).

The Python code is sequential HTTP glue: every operation builds a URL from the
stored configuration, issues at most a couple of blocking requests, and either
returns parsed JSON or raises. We model the network as an explicit environment
`Net` that fixes the outcome of each kind of request, and we record every
request the code would issue in an event trace, so that statements of the form
"no POST occurs" are about the trace. Python exceptions are modelled with
`Except`: `PyErr.valueError msg` is a raised `ValueError(msg)` and
`PyErr.requestException` a raised `requests.RequestException`. The console
prints of the original are presentation only and are not modelled. JSON
payload dictionaries are modelled as ordered association lists, in the order
the Python code inserts the keys.
-/

/-- A JSON value as it appears in the request payloads of the program:
strings, booleans, and lists of strings. -/
inductive JVal
  | s (v : String)
  | b (v : Bool)
  | list (v : List String)
  deriving DecidableEq

/-- A JSON object payload, as an ordered association list (insertion order of
the Python dict). -/
abbrev Payload := List (String × JVal)

/-- A network request the program issues, with the URL it targets and, for
POSTs, the JSON payload it sends. -/
inductive Event
  | getBranch (url : String)
  | postCreate (url : String) (payload : Payload)
  | postReviewers (url : String) (payload : Payload)
  | getPR (url : String)
  deriving DecidableEq

/-- Whether an event is a branch-lookup GET. -/
def Event.isGetBranch : Event → Bool
  | Event.getBranch _ => true
  | _ => false

/-- Whether an event is the reviewer-attachment POST. -/
def Event.isPostReviewers : Event → Bool
  | Event.postReviewers _ _ => true
  | _ => false

/-- A raised Python exception: `ValueError(msg)` or `requests.RequestException`. -/
inductive PyErr
  | valueError (msg : String)
  | requestException
  deriving DecidableEq

/-- The fields of the PR-creation response JSON that the code reads
(`pr_data['number']`, `pr_data['title']`, `pr_data['html_url']`); the remaining
response fields are opaque to the program. -/
structure PRData where
  number : Nat
  title : String
  html_url : String
  deriving DecidableEq

/-- The dictionary returned by `create_pr_with_reviewers`: the created PR data
plus the `reviewers_added` key, which is present in the dict exactly when the
code assigned it (`none` models the key being absent). -/
structure PRResult where
  data : PRData
  reviewers_added : Option Bool
  deriving DecidableEq

/-- The network environment: the outcome of each request the program can issue.
`branchStatus b = some st` means `GET .../branches/b` returns HTTP status `st`;
`none` means the request raises `requests.RequestException`. `createResult`
and `reviewersResult` are the outcomes of the two POSTs: `Except.error ()`
models a `requests.RequestException` (transport failure or a non-2xx status
surfaced by `raise_for_status`), `Except.ok` carries the parsed response. -/
structure Net where
  branchStatus : String → Option Nat
  createResult : Except Unit PRData
  reviewersResult : Except Unit Payload

/-- The double-quote character checked by the token validation. -/
def dqChar : Char := Char.ofNat 34

/-- The apostrophe character checked by the token validation. -/
def aposChar : Char := Char.ofNat 39

/-- A one-character string holding an apostrophe, used to spell the quoted
branch names in the error messages of the source. -/
def aposStr : String := String.mk [aposChar]

/-- Python `str.strip()` whitespace: space, tab, newline, carriage return,
vertical tab, form feed. -/
def pyIsSpace (c : Char) : Bool :=
  c = ' ' || c = '\t' || c = '\n' || c = '\r' || c = Char.ofNat 11 || c = Char.ofNat 12

/-- Python `token.strip()`: remove leading and trailing whitespace. -/
def pyStrip (s : String) : String :=
  String.mk (((s.data.dropWhile pyIsSpace).reverse.dropWhile pyIsSpace).reverse)

/-- Python `c in s` membership of a single character in a string. -/
def pyIn (c : Char) (s : String) : Bool :=
  s.data.contains c

/-- Message of the `ValueError` raised by `__init__` on a bad token. -/
def bad_token_msg : String :=
  "Token contains invalid characters (quotes or apostrophes)"

/-- Message of the `ValueError` raised by `validate_branches` for the head. -/
def source_branch_missing_msg (head : String) : String :=
  "❌ Source branch " ++ aposStr ++ head ++ aposStr ++ " does not exist in the repository!"

/-- Message of the `ValueError` raised by `validate_branches` for the base. -/
def target_branch_missing_msg (base : String) : String :=
  "❌ Target branch " ++ aposStr ++ base ++ aposStr ++ " does not exist in the repository!"

/-- Message of the `ValueError` raised by `add_reviewers` with no reviewers. -/
def no_reviewers_msg : String :=
  "At least one reviewer or team must be provided"

/-- The configuration held by a constructed `GitHubPRManager` (the token is
stored already stripped, as in `__init__`). The `headers` dict is a pure
function of these fields and is not modelled separately. -/
structure GitHubPRManager where
  token : String
  owner : String
  repo : String
  base_url : String
  deriving DecidableEq

/-- Model of `GitHubPRManager.__init__`: strips the token, then raises `ValueError` if
the stripped token contains a double quote or an apostrophe; otherwise
construction succeeds. The `github_pat_` prefix check only prints a warning
and the remaining body only prints, so neither affects the outcome. -/
def GitHubPRManager.init (token owner repo base_url : String) :
    Except PyErr GitHubPRManager :=
  let t := pyStrip token
  if pyIn dqChar t || pyIn aposChar t then
    Except.error (PyErr.valueError bad_token_msg)
  else
    Except.ok { token := t, owner := owner, repo := repo, base_url := base_url }

/-- URL of `GET /repos/{owner}/{repo}/branches/{branch_name}`. -/
def branch_url (m : GitHubPRManager) (branch_name : String) : String :=
  m.base_url ++ "/repos/" ++ m.owner ++ "/" ++ m.repo ++ "/branches/" ++ branch_name

/-- URL of `POST /repos/{owner}/{repo}/pulls`. -/
def pulls_url (m : GitHubPRManager) : String :=
  m.base_url ++ "/repos/" ++ m.owner ++ "/" ++ m.repo ++ "/pulls"

/-- URL of `POST /repos/{owner}/{repo}/pulls/{pr_number}/requested_reviewers`. -/
def reviewers_url (m : GitHubPRManager) (pr_number : Nat) : String :=
  pulls_url m ++ "/" ++ toString pr_number ++ "/requested_reviewers"

/-- Model of `check_branch_exists`: issues the branch GET and returns
`response.status_code == 200`; a `requests.RequestException` (modelled by
`branchStatus = none`) is swallowed and yields `false`. Returns the boolean
together with the trace of the one request issued. -/
def check_branch_exists (net : Net) (m : GitHubPRManager) (branch_name : String) :
    Bool × List Event :=
  match net.branchStatus branch_name with
  | some status => (status == 200, [Event.getBranch (branch_url m branch_name)])
  | none => (false, [Event.getBranch (branch_url m branch_name)])

/-- Model of `validate_branches`: checks the head branch, raising `ValueError` naming it
if absent; only then checks the base branch, raising `ValueError` naming it if
absent. -/
def validate_branches (net : Net) (m : GitHubPRManager) (head base : String) :
    Except PyErr Unit × List Event :=
  if !(check_branch_exists net m head).1 then
    (Except.error (PyErr.valueError (source_branch_missing_msg head)),
     (check_branch_exists net m head).2)
  else if !(check_branch_exists net m base).1 then
    (Except.error (PyErr.valueError (target_branch_missing_msg base)),
     (check_branch_exists net m head).2 ++ (check_branch_exists net m base).2)
  else
    (Except.ok (),
     (check_branch_exists net m head).2 ++ (check_branch_exists net m base).2)

/-- The creation payload dict: `title`, `head`, `base`, `draft` are always set;
`body` is added only under `if body:`, i.e. when the body argument is neither
`None` nor the empty string (Python truthiness). -/
def create_payload (title head base : String) (body : Option String) (draft : Bool) :
    Payload :=
  let data : Payload :=
    [("title", JVal.s title), ("head", JVal.s head),
     ("base", JVal.s base), ("draft", JVal.b draft)]
  match body with
  | some s => if !(s == "") then data ++ [("body", JVal.s s)] else data
  | none => data

/-- Model of `create_pull_request`: validates both branches first (propagating any
`ValueError`), then issues the creation POST; a failed POST prints and
re-raises the `RequestException`. -/
def create_pull_request (net : Net) (m : GitHubPRManager) (title head base : String)
    (body : Option String) (draft : Bool) : Except PyErr PRData × List Event :=
  match validate_branches net m head base with
  | (Except.error e, t) => (Except.error e, t)
  | (Except.ok _, t) =>
    match net.createResult with
    | Except.ok pr =>
        (Except.ok pr,
         t ++ [Event.postCreate (pulls_url m) (create_payload title head base body draft)])
    | Except.error _ =>
        (Except.error PyErr.requestException,
         t ++ [Event.postCreate (pulls_url m) (create_payload title head base body draft)])

/-- Python truthiness of an optional list argument (`not reviewers` is true
both for `None` and for `[]`). -/
def pyTruthyList (l : Option (List String)) : Bool :=
  match l with
  | none => false
  | some xs => !xs.isEmpty

/-- The reviewer-request payload dict: `reviewers` is set only when the
reviewers argument is truthy, then `team_reviewers` only when the teams
argument is truthy. -/
def reviewers_payload (reviewers team_reviewers : Option (List String)) : Payload :=
  (if pyTruthyList reviewers then [("reviewers", JVal.list (reviewers.getD []))] else [])
  ++ (if pyTruthyList team_reviewers then
        [("team_reviewers", JVal.list (team_reviewers.getD []))] else [])

/-- Model of `add_reviewers`: raises `ValueError` when both reviewer arguments are
falsy, before building any URL or issuing any request; otherwise issues the
reviewer POST, re-raising a `RequestException` on failure. -/
def add_reviewers (net : Net) (m : GitHubPRManager) (pr_number : Nat)
    (reviewers team_reviewers : Option (List String)) :
    Except PyErr Payload × List Event :=
  if !pyTruthyList reviewers && !pyTruthyList team_reviewers then
    (Except.error (PyErr.valueError no_reviewers_msg), [])
  else
    match net.reviewersResult with
    | Except.ok r =>
        (Except.ok r,
         [Event.postReviewers (reviewers_url m pr_number)
            (reviewers_payload reviewers team_reviewers)])
    | Except.error _ =>
        (Except.error PyErr.requestException,
         [Event.postReviewers (reviewers_url m pr_number)
            (reviewers_payload reviewers team_reviewers)])

/-- Model of `create_pr_with_reviewers`: creates the PR (propagating its exceptions),
then, only if some reviewer argument is truthy, calls `add_reviewers` inside a
`try`/`except Exception` that sets `pr_data['reviewers_added']` to `True` on
success and to `False` on any exception; with no reviewers requested the key
is never set. -/
def create_pr_with_reviewers (net : Net) (m : GitHubPRManager)
    (title head base : String) (body : Option String) (draft : Bool)
    (reviewers team_reviewers : Option (List String)) :
    Except PyErr PRResult × List Event :=
  match create_pull_request net m title head base body draft with
  | (Except.error e, t) => (Except.error e, t)
  | (Except.ok pr, t) =>
    if pyTruthyList reviewers || pyTruthyList team_reviewers then
      match add_reviewers net m pr.number reviewers team_reviewers with
      | (Except.ok _, t2) =>
          (Except.ok { data := pr, reviewers_added := some true }, t ++ t2)
      | (Except.error _, t2) =>
          (Except.ok { data := pr, reviewers_added := some false }, t ++ t2)
    else
      (Except.ok { data := pr, reviewers_added := none }, t)

/-- A fixed manager configuration used by the concrete witnesses. -/
def m0 : GitHubPRManager :=
  { token := "github_pat_abc", owner := "octo", repo := "demo",
    base_url := "https://api.github.com" }

/-- A fixed PR-creation response used by the concrete witnesses. -/
def pr0 : PRData :=
  { number := 7, title := "Add X", html_url := "https://example.com/pr/7" }

/-- Environment where every request succeeds. -/
def netAllOk : Net :=
  { branchStatus := fun _ => some 200, createResult := Except.ok pr0,
    reviewersResult := Except.ok [] }

/-- Environment where branches exist and creation succeeds, but the reviewer
POST fails. -/
def netRevFail : Net :=
  { branchStatus := fun _ => some 200, createResult := Except.ok pr0,
    reviewersResult := Except.error () }

/-- Environment where every branch lookup answers 404. -/
def net404 : Net :=
  { branchStatus := fun _ => some 404, createResult := Except.ok pr0,
    reviewersResult := Except.ok [] }

/-- Environment where every branch lookup raises a transport exception. -/
def netDown : Net :=
  { branchStatus := fun _ => none, createResult := Except.ok pr0,
    reviewersResult := Except.ok [] }

/-- The trace of a successful creation of PR "Add X" from `feature` into
`main` with no body, used by the concrete witnesses. -/
def t_create0 : List Event :=
  [Event.getBranch (branch_url m0 "feature"), Event.getBranch (branch_url m0 "main"),
   Event.postCreate (pulls_url m0) (create_payload "Add X" "feature" "main" none false)]

/-! Helper lemmas about the request traces. -/

theorem check_branch_exists_snd (net : Net) (m : GitHubPRManager) (b : String) :
    (check_branch_exists net m b).2 = [Event.getBranch (branch_url m b)] := by
  unfold check_branch_exists
  rcases net.branchStatus b with _ | st <;> rfl

theorem check_branch_exists_fst (net : Net) (m : GitHubPRManager) (b : String) :
    (check_branch_exists net m b).1
      = ((net.branchStatus b).map (fun st => st == 200)).getD false := by
  unfold check_branch_exists
  rcases net.branchStatus b with _ | st <;> rfl

theorem validate_branches_snd_cases (net : Net) (m : GitHubPRManager) (head base : String) :
    (validate_branches net m head base).2 = [Event.getBranch (branch_url m head)]
    ∨ (validate_branches net m head base).2
        = [Event.getBranch (branch_url m head), Event.getBranch (branch_url m base)] := by
  unfold validate_branches
  rcases h1 : (check_branch_exists net m head).1 with _ | _
  · exact Or.inl (by simp [h1, check_branch_exists_snd])
  · rcases h2 : (check_branch_exists net m base).1 with _ | _ <;>
      exact Or.inr (by simp [h1, h2, check_branch_exists_snd])

/-- C4: constructing the client with a token whose stripped form contains a
double quote or an apostrophe fails with the configuration `ValueError`
(likewise for any owner, repo and base URL); for every token without such
characters construction succeeds, holding the stripped token. -/
theorem init_rejects_quoted_token (token owner repo base_url : String) :
    ((pyIn dqChar (pyStrip token) || pyIn aposChar (pyStrip token)) = true →
      GitHubPRManager.init token owner repo base_url
        = Except.error (PyErr.valueError bad_token_msg))
    ∧ ((pyIn dqChar (pyStrip token) || pyIn aposChar (pyStrip token)) = false →
      GitHubPRManager.init token owner repo base_url
        = Except.ok { token := pyStrip token, owner := owner, repo := repo,
                      base_url := base_url }) := by
  constructor <;> intro h <;> simp [GitHubPRManager.init, h]

/-- C4 witness: a token that is a lone double quote is rejected, and a plain
token is accepted, at concrete inputs. -/
theorem init_rejects_quoted_token_witness :
    GitHubPRManager.init (String.mk [dqChar]) "octo" "demo" "https://api.github.com"
      = Except.error (PyErr.valueError bad_token_msg)
    ∧ GitHubPRManager.init "github_pat_abc" "octo" "demo" "https://api.github.com"
      = Except.ok { token := pyStrip "github_pat_abc", owner := "octo", repo := "demo",
                    base_url := "https://api.github.com" } :=
  ⟨(init_rejects_quoted_token (String.mk [dqChar]) "octo" "demo"
      "https://api.github.com").1 (by decide),
   (init_rejects_quoted_token "github_pat_abc" "octo" "demo"
      "https://api.github.com").2 (by decide)⟩

/-- C5: `check_branch_exists` answers `true` exactly when the branch GET
yields status 200; for any other status, and when the request raises, it
answers `false`, so a 404 and a transport failure are indistinguishable. -/
theorem check_branch_exists_true_iff (net : Net) (m : GitHubPRManager) (b : String) :
    ((check_branch_exists net m b).1 = true ↔ net.branchStatus b = some 200)
    ∧ (∀ net2 : Net, net.branchStatus b = some 404 → net2.branchStatus b = none →
        (check_branch_exists net m b).1 = false ∧ (check_branch_exists net2 m b).1 = false) := by
  constructor
  · rw [check_branch_exists_fst]
    rcases h : net.branchStatus b with _ | st <;> simp [h]
  · intro net2 h1 h2
    constructor <;> simp [check_branch_exists_fst, h1, h2]

/-- C5 witness: at a concrete 404 environment and a concrete
transport-failure environment, the check returns `false` in both. -/
theorem check_branch_exists_true_iff_witness :
    (check_branch_exists net404 m0 "feature").1 = false
    ∧ (check_branch_exists netDown m0 "feature").1 = false :=
  (check_branch_exists_true_iff net404 m0 "feature").2 netDown rfl rfl

/-- C6: when both branch checks come back `false`, `validate_branches` fails
with the `ValueError` naming the head (source) branch, having issued only the
head lookup — the head is checked first and the base never reached. -/
theorem validate_branches_reports_head (net : Net) (m : GitHubPRManager) (head base : String)
    (h1 : (check_branch_exists net m head).1 = false)
    (h2 : (check_branch_exists net m base).1 = false) :
    validate_branches net m head base
      = (Except.error (PyErr.valueError (source_branch_missing_msg head)),
         [Event.getBranch (branch_url m head)]) := by
  simp [validate_branches, h1, check_branch_exists_snd]

/-- C6 witness: with every lookup failing, validating `missing-head` against
`main` reports the head branch. -/
theorem validate_branches_reports_head_witness :
    validate_branches netDown m0 "missing-head" "main"
      = (Except.error (PyErr.valueError (source_branch_missing_msg "missing-head")),
         [Event.getBranch (branch_url m0 "missing-head")]) :=
  validate_branches_reports_head netDown m0 "missing-head" "main" rfl rfl

/-- C3: `add_reviewers` with both reviewer arguments empty or absent raises
the `ValueError` with an empty request trace: no network call is made. -/
theorem add_reviewers_requires_reviewers (net : Net) (m : GitHubPRManager) (pr_number : Nat)
    (reviewers team_reviewers : Option (List String))
    (h1 : pyTruthyList reviewers = false) (h2 : pyTruthyList team_reviewers = false) :
    add_reviewers net m pr_number reviewers team_reviewers
      = (Except.error (PyErr.valueError no_reviewers_msg), []) := by
  simp [add_reviewers, h1, h2]

/-- C3 witness: with both lists given but empty, `add_reviewers` fails with
the `ValueError` and an empty trace. -/
theorem add_reviewers_requires_reviewers_witness :
    add_reviewers netAllOk m0 3 (some []) (some [])
      = (Except.error (PyErr.valueError no_reviewers_msg), []) :=
  add_reviewers_requires_reviewers netAllOk m0 3 (some []) (some []) rfl rfl

/-- C7: with no body argument the creation payload holds exactly the keys
`title`, `head`, `base`, `draft` (no `body` key); with a non-empty body
supplied, the same four keys followed by `body`. `create_payload` is, by
definition of `create_pull_request`, the payload of the creation POST. -/
theorem create_payload_body_handling :
    (∀ title head base draft, create_payload title head base none draft
        = [("title", JVal.s title), ("head", JVal.s head),
           ("base", JVal.s base), ("draft", JVal.b draft)])
    ∧ (∀ title head base s draft, s ≠ "" →
        create_payload title head base (some s) draft
          = [("title", JVal.s title), ("head", JVal.s head),
             ("base", JVal.s base), ("draft", JVal.b draft), ("body", JVal.s s)]) := by
  constructor
  · intro title head base draft
    rfl
  · intro title head base s draft hs
    simp [create_payload, hs]

/-- C7 witness: the spec scenario — title "Add X", head `feature`, base
`main`, no body — yields the four-key payload, and a non-empty body is
appended under `body`. -/
theorem create_payload_body_handling_witness :
    create_payload "Add X" "feature" "main" none false
      = [("title", JVal.s "Add X"), ("head", JVal.s "feature"),
         ("base", JVal.s "main"), ("draft", JVal.b false)]
    ∧ create_payload "Add X" "feature" "main" (some "desc") false
      = [("title", JVal.s "Add X"), ("head", JVal.s "feature"),
         ("base", JVal.s "main"), ("draft", JVal.b false), ("body", JVal.s "desc")] :=
  ⟨create_payload_body_handling.1 "Add X" "feature" "main" false,
   create_payload_body_handling.2 "Add X" "feature" "main" "desc" false (by decide)⟩

/-- C9: an explicit empty string body produces the same payload as an absent
body — the `if body:` truthiness test omits the `body` key in both cases. -/
theorem create_payload_empty_body (title head base : String) (draft : Bool) :
    create_payload title head base (some "") draft
      = create_payload title head base none draft
    ∧ ∀ v, ("body", v) ∉ create_payload title head base (some "") draft := by
  constructor
  · rfl
  · intro v hv
    simp [create_payload] at hv

/-- C9 witness: at concrete inputs, the empty-string body payload carries no
`body` key. -/
theorem create_payload_empty_body_witness :
    create_payload "Add X" "feature" "main" (some "") false
      = create_payload "Add X" "feature" "main" none false
    ∧ ("body", JVal.s "") ∉ create_payload "Add X" "feature" "main" (some "") false :=
  ⟨(create_payload_empty_body "Add X" "feature" "main" false).1,
   (create_payload_empty_body "Add X" "feature" "main" false).2 (JVal.s "")⟩

/-- C8: past validation, the reviewer payload holds the `reviewers` key
exactly when the reviewers argument is truthy (present and non-empty) and the
`team_reviewers` key exactly when the teams argument is, and that payload is
exactly what the reviewer POST sends. -/
theorem reviewers_payload_populated_fields (reviewers team_reviewers : Option (List String))
    (h : (pyTruthyList reviewers || pyTruthyList team_reviewers) = true) :
    ((∃ v, ("reviewers", v) ∈ reviewers_payload reviewers team_reviewers)
        ↔ pyTruthyList reviewers = true)
    ∧ ((∃ v, ("team_reviewers", v) ∈ reviewers_payload reviewers team_reviewers)
        ↔ pyTruthyList team_reviewers = true)
    ∧ ∀ (net : Net) (m : GitHubPRManager) (pr_number : Nat),
        (add_reviewers net m pr_number reviewers team_reviewers).2
          = [Event.postReviewers (reviewers_url m pr_number)
               (reviewers_payload reviewers team_reviewers)] := by
  have hg : (!pyTruthyList reviewers && !pyTruthyList team_reviewers) = false := by
    cases ha : pyTruthyList reviewers <;> cases hb : pyTruthyList team_reviewers <;>
      simp_all
  refine ⟨?_, ?_, ?_⟩
  · cases ha : pyTruthyList reviewers <;> cases hb : pyTruthyList team_reviewers <;>
      simp [reviewers_payload, ha, hb]
  · cases ha : pyTruthyList reviewers <;> cases hb : pyTruthyList team_reviewers <;>
      simp [reviewers_payload, ha, hb]
  · intro net m pr_number
    unfold add_reviewers
    rcases hr : net.reviewersResult with _ | r <;> simp [hg, hr]

/-- C8 witness: with one reviewer and no teams, the payload holds exactly the
`reviewers` key and the POST sends it. -/
theorem reviewers_payload_populated_fields_witness :
    ((∃ v, ("reviewers", v) ∈ reviewers_payload (some ["alice"]) none)
        ↔ pyTruthyList (some ["alice"]) = true)
    ∧ ((∃ v, ("team_reviewers", v) ∈ reviewers_payload (some ["alice"]) none)
        ↔ pyTruthyList (none : Option (List String)) = true)
    ∧ ∀ (net : Net) (m : GitHubPRManager) (pr_number : Nat),
        (add_reviewers net m pr_number (some ["alice"]) none).2
          = [Event.postReviewers (reviewers_url m pr_number)
               (reviewers_payload (some ["alice"]) none)] :=
  reviewers_payload_populated_fields (some ["alice"]) none (by decide)

/-- Every event in the trace of `create_pull_request` is a branch GET or the
creation POST with the creation payload. -/
theorem create_pull_request_trace_shape (net : Net) (m : GitHubPRManager)
    (title head base : String) (body : Option String) (draft : Bool) :
    ∀ ev ∈ (create_pull_request net m title head base body draft).2,
      ev.isGetBranch = true
      ∨ ev = Event.postCreate (pulls_url m) (create_payload title head base body draft) := by
  intro ev hev
  unfold create_pull_request at hev
  rcases hval : validate_branches net m head base with ⟨res, t⟩
  have hcases := validate_branches_snd_cases net m head base
  rw [hval] at hcases hev
  simp only at hcases
  rcases res with e | u
  · simp only at hev
    rcases hcases with hc | hc <;> rw [hc] at hev <;>
      fin_cases hev <;> simp [Event.isGetBranch]
  · rcases hcr : net.createResult with _ | pr <;> rw [hcr] at hev <;>
      simp only at hev <;>
      rcases hcases with hc | hc <;> rw [hc] at hev <;>
      simp only [List.cons_append, List.nil_append] at hev <;>
      fin_cases hev <;> simp [Event.isGetBranch]

/-- The trace of `create_pull_request` never contains a reviewer POST. -/
theorem create_pull_request_no_reviewer_post (net : Net) (m : GitHubPRManager)
    (title head base : String) (body : Option String) (draft : Bool) :
    ∀ ev ∈ (create_pull_request net m title head base body draft).2,
      ev.isPostReviewers = false := by
  intro ev hev
  rcases create_pull_request_trace_shape net m title head base body draft ev hev with h | h
  · cases ev <;> simp_all [Event.isGetBranch, Event.isPostReviewers]
  · simp [h, Event.isPostReviewers]

/-- C2: `create_pull_request` always runs branch validation first (its trace
begins with the head-branch lookup), and when either branch check answers
`false` it raises before the creation POST: the whole trace consists of
branch GETs only. -/
theorem create_pull_request_validates_first (net : Net) (m : GitHubPRManager)
    (title head base : String) (body : Option String) (draft : Bool) :
    (∃ rest, (create_pull_request net m title head base body draft).2
        = Event.getBranch (branch_url m head) :: rest)
    ∧ (((check_branch_exists net m head).1 = false
          ∨ (check_branch_exists net m base).1 = false) →
        (∃ e, (create_pull_request net m title head base body draft).1 = Except.error e)
        ∧ ∀ ev ∈ (create_pull_request net m title head base body draft).2,
            ev.isGetBranch = true) := by
  rcases h1 : (check_branch_exists net m head).1 with _ | _
  · have hv : create_pull_request net m title head base body draft
        = (Except.error (PyErr.valueError (source_branch_missing_msg head)),
           [Event.getBranch (branch_url m head)]) := by
      simp [create_pull_request, validate_branches, h1, check_branch_exists_snd]
    rw [hv]
    refine ⟨⟨[], rfl⟩, fun _ => ⟨⟨_, rfl⟩, ?_⟩⟩
    intro ev hev
    fin_cases hev <;> simp [Event.isGetBranch]
  · rcases h2 : (check_branch_exists net m base).1 with _ | _
    · have hv : create_pull_request net m title head base body draft
          = (Except.error (PyErr.valueError (target_branch_missing_msg base)),
             [Event.getBranch (branch_url m head), Event.getBranch (branch_url m base)]) := by
        simp [create_pull_request, validate_branches, h1, h2, check_branch_exists_snd]
      rw [hv]
      refine ⟨⟨[Event.getBranch (branch_url m base)], rfl⟩, fun _ => ⟨⟨_, rfl⟩, ?_⟩⟩
      intro ev hev
      fin_cases hev <;> simp [Event.isGetBranch]
    · have hval : validate_branches net m head base
          = (Except.ok (),
             [Event.getBranch (branch_url m head), Event.getBranch (branch_url m base)]) := by
        simp [validate_branches, h1, h2, check_branch_exists_snd]
      constructor
      · rcases hcr : net.createResult with _ | pr <;>
          exact ⟨[Event.getBranch (branch_url m base),
                  Event.postCreate (pulls_url m) (create_payload title head base body draft)],
                 by simp [create_pull_request, hval, hcr]⟩
      · intro hor
        rcases hor with hor | hor
        · simp [h1] at hor
        · simp [h2] at hor

/-- C2 witness: with every branch lookup answering 404, the concrete creation
call fails and its trace holds branch GETs only — no creation POST occurs. -/
theorem create_pull_request_validates_first_witness :
    (∃ e, (create_pull_request net404 m0 "Add X" "feature" "main" none false).1
        = Except.error e)
    ∧ ∀ ev ∈ (create_pull_request net404 m0 "Add X" "feature" "main" none false).2,
        ev.isGetBranch = true :=
  (create_pull_request_validates_first net404 m0 "Add X" "feature" "main" none false).2
    (Or.inl rfl)

/-- C1: if PR creation succeeds but the reviewer POST fails, the composed
operation returns normally with `reviewers_added = False` on the PR dict; if
PR creation fails, the composed operation fails with the same exception and
its trace — the creation trace — holds no reviewer POST. -/
theorem create_pr_with_reviewers_error_handling :
    (∀ (net : Net) (m : GitHubPRManager) (title head base : String)
        (body : Option String) (draft : Bool)
        (reviewers team_reviewers : Option (List String)) (pr : PRData) (t : List Event),
      (pyTruthyList reviewers || pyTruthyList team_reviewers) = true →
      create_pull_request net m title head base body draft = (Except.ok pr, t) →
      net.reviewersResult = Except.error () →
      create_pr_with_reviewers net m title head base body draft reviewers team_reviewers
        = (Except.ok { data := pr, reviewers_added := some false },
           t ++ [Event.postReviewers (reviewers_url m pr.number)
                   (reviewers_payload reviewers team_reviewers)]))
    ∧ (∀ (net : Net) (m : GitHubPRManager) (title head base : String)
        (body : Option String) (draft : Bool)
        (reviewers team_reviewers : Option (List String)) (e : PyErr) (t : List Event),
      create_pull_request net m title head base body draft = (Except.error e, t) →
      create_pr_with_reviewers net m title head base body draft reviewers team_reviewers
        = (Except.error e, t)
      ∧ ∀ ev ∈ t, ev.isPostReviewers = false) := by
  constructor
  · intro net m title head base body draft reviewers team_reviewers pr t htr hok hrev
    have hg : (!pyTruthyList reviewers && !pyTruthyList team_reviewers) = false := by
      cases ha : pyTruthyList reviewers <;> cases hb : pyTruthyList team_reviewers <;>
        simp_all
    have hadd : add_reviewers net m pr.number reviewers team_reviewers
        = (Except.error PyErr.requestException,
           [Event.postReviewers (reviewers_url m pr.number)
              (reviewers_payload reviewers team_reviewers)]) := by
      simp [add_reviewers, hg, hrev]
    simp [create_pr_with_reviewers, hok, htr, hadd]
  · intro net m title head base body draft reviewers team_reviewers e t herr
    constructor
    · simp [create_pr_with_reviewers, herr]
    · intro ev hev
      have h2 : (create_pull_request net m title head base body draft).2 = t := by
        rw [herr]
      exact create_pull_request_no_reviewer_post net m title head base body draft ev
        (h2 ▸ hev)

/-- C1 witness: a concrete run where creation succeeds and the reviewer POST
fails returns the PR dict with `reviewers_added = False` and does not raise. -/
theorem create_pr_with_reviewers_error_handling_witness :
    create_pr_with_reviewers netRevFail m0 "Add X" "feature" "main" none false
        (some ["alice"]) none
      = (Except.ok { data := pr0, reviewers_added := some false },
         t_create0 ++ [Event.postReviewers (reviewers_url m0 pr0.number)
                         (reviewers_payload (some ["alice"]) none)]) :=
  create_pr_with_reviewers_error_handling.1 netRevFail m0 "Add X" "feature" "main"
    none false (some ["alice"]) none pr0 t_create0 rfl rfl rfl

/-- C10: when both reviewer arguments are empty or absent and creation
succeeds, `create_pr_with_reviewers` returns normally (no `ValueError`), the
`reviewers_added` key is never set, and the trace is exactly the creation
trace — reviewer attachment is skipped entirely. -/
theorem create_pr_with_reviewers_skips_empty (net : Net) (m : GitHubPRManager)
    (title head base : String) (body : Option String) (draft : Bool)
    (reviewers team_reviewers : Option (List String)) (pr : PRData) (t : List Event)
    (h1 : pyTruthyList reviewers = false) (h2 : pyTruthyList team_reviewers = false)
    (hok : create_pull_request net m title head base body draft = (Except.ok pr, t)) :
    create_pr_with_reviewers net m title head base body draft reviewers team_reviewers
      = (Except.ok { data := pr, reviewers_added := none }, t) := by
  simp [create_pr_with_reviewers, hok, h1, h2]

/-- C10 witness: a concrete successful creation with both reviewer arguments
absent returns the PR dict without the `reviewers_added` key. -/
theorem create_pr_with_reviewers_skips_empty_witness :
    create_pr_with_reviewers netAllOk m0 "Add X" "feature" "main" none false none none
      = (Except.ok { data := pr0, reviewers_added := none }, t_create0) :=
  create_pr_with_reviewers_skips_empty netAllOk m0 "Add X" "feature" "main" none false
    none none pr0 t_create0 rfl rfl rfl
